import Mathlib

/-!
Verification of wimlib core claims against a shallow Lean embedding of the
relevant C sources (`compress.c`, `unix_apply.c`, `include/wimlib/wim.h`,
`include/wimlib/endianness.h`, `include/wimlib/integrity.h`).

Machine integers are modelled as `Nat` (with explicit `% 2^w` where the C
arithmetic truncates) or `Int` for C `int` values that may be negative.
Stateful C code is modelled by explicit state passing; external calls
(codec vtable functions, libc calls) are modelled by oracle inputs recording
their observable results.
-/

/-! ## Error codes

`wimlib.h` itself is not part of the sources at hand, only its users; the
numeric values below are therefore symbolic.  Every proof relies only on the
codes being nonzero and pairwise distinct, never on the particular numerals.
A return value of `0` is success (`WIMLIB_ERR_SUCCESS`). -/

def WIMLIB_ERR_INVALID_COMPRESSION_TYPE : Int := 22

def WIMLIB_ERR_INVALID_PARAM : Int := 28

def WIMLIB_ERR_NOMEM : Int := 48

def WIMLIB_ERR_MKNOD : Int := 46

def WIMLIB_ERR_OPEN : Int := 49

def WIMLIB_ERR_WRITE : Int := 73

def WIMLIB_ERR_LINK : Int := 34

/-- POSIX errno values (system headers, standard Linux values). -/
def EPERM : Nat := 1

def EEXIST : Nat := 17

/-! ## `include/wimlib/wim.h`: `WIMStruct`, `wim_has_integrity_table`,
`wim_has_metadata`

Only the fields consulted by the claims are carried.  A C pointer that is
tested against `NULL` is modelled as an `Option`. -/

/-- Resource header; only `offset_in_wim` is consulted by the claims. -/
structure resource_reshdr where
  offset_in_wim : Nat
deriving DecidableEq

/-- The WIM header fields consulted by `wim_has_integrity_table` and
`wim_has_metadata`. -/
structure wim_header where
  image_count : Nat
  integrity_table_reshdr : resource_reshdr
deriving DecidableEq

/-- The `struct WIMStruct`, restricted to the fields the claims consult.
`image_metadata` is a pointer to an array; `none` models `NULL`. -/
structure WIMStruct where
  image_metadata : Option (List Nat)
  hdr : wim_header
deriving DecidableEq

/-- Embeds `wim_has_integrity_table`:
`return (wim->hdr.integrity_table_reshdr.offset_in_wim != 0);` -/
def wim_has_integrity_table (wim : WIMStruct) : Bool :=
  wim.hdr.integrity_table_reshdr.offset_in_wim != 0

/-- Embeds `wim_has_metadata`:
`return (wim->image_metadata != NULL || wim->hdr.image_count == 0);` -/
def wim_has_metadata (wim : WIMStruct) : Bool :=
  wim.image_metadata.isSome || wim.hdr.image_count == 0

/-! ## `include/wimlib/integrity.h`: `check_wim_integrity` -/

def WIM_INTEGRITY_OK : Int := 0

def WIM_INTEGRITY_NOT_OK : Int := -1

def WIM_INTEGRITY_NONEXISTENT : Int := -2

/-- Modelled from the spec: the body of `check_wim_integrity` is not among
the sources at hand (only its declaration in `include/wimlib/integrity.h`
and the `wim_has_integrity_table` accessor in `include/wimlib/wim.h` are).
Per the spec, the integrity check "reads and compares" the stored chunk
SHA-1s against recomputed ones and "returns {OK, NOT_OK, NONEXISTENT}",
NONEXISTENT meaning the WIM has no integrity table.  The oracle
`hashes_match` records the outcome of the read-and-compare step. -/
def check_wim_integrity (wim : WIMStruct) (hashes_match : Bool) : Int :=
  if !wim_has_integrity_table wim then WIM_INTEGRITY_NONEXISTENT
  else if hashes_match then WIM_INTEGRITY_OK
  else WIM_INTEGRITY_NOT_OK

/-! ## `unix_apply.c`: path-buffer index arithmetic

`which_pathbuf` is a C `unsigned` (32 bits); subtraction wraps modulo
`2^32`.  `unix_build_extraction_path` returns the index of the buffer it
used together with the updated `which_pathbuf`; `unix_reuse_pathbuf`
returns the updated `which_pathbuf`. -/

def NUM_PATHBUFS : Nat := 2

/-- Embeds `pathbuf = ctx->pathbufs[ctx->which_pathbuf];`
`ctx->which_pathbuf = (ctx->which_pathbuf + 1) % NUM_PATHBUFS;` -/
def unix_build_extraction_path_idx (which_pathbuf : Nat) : Nat × Nat :=
  (which_pathbuf, ((which_pathbuf + 1) % 2 ^ 32) % NUM_PATHBUFS)

/-- Embeds `ctx->which_pathbuf = (ctx->which_pathbuf - 1) % NUM_PATHBUFS;`
with the C unsigned subtraction wrapping modulo `2^32`. -/
def unix_reuse_pathbuf_idx (which_pathbuf : Nat) : Nat :=
  ((which_pathbuf + 2 ^ 32 - 1) % 2 ^ 32) % NUM_PATHBUFS

/-! ## `compress.c`: compressor creation, default levels, `wimlib_compress`

`compressor_ops[]` has designated initializers at indices
`WIMLIB_COMPRESSION_TYPE_XPRESS = 1`, `LZX = 2`, `LZMS = 3`, so its length
is 4 and entry 0 (`WIMLIB_COMPRESSION_TYPE_NONE`) is `NULL`.  The
process-wide `default_compression_levels[]` array is modelled as explicit
state `DefaultLevels`. -/

def ARRAY_LEN_compressor_ops : Nat := 4

/-- Whether `compressor_ops[i] != NULL` (indices 1, 2, 3 are initialized). -/
def compressor_ops_nonnull (i : Nat) : Bool :=
  i == 1 || i == 2 || i == 3

/-- Embeds `compressor_ctype_valid`:
`ctype >= 0 && ctype < ARRAY_LEN(compressor_ops) && compressor_ops[ctype] != NULL` -/
def compressor_ctype_valid (ctype : Int) : Bool :=
  decide (0 ≤ ctype) && decide (ctype < (ARRAY_LEN_compressor_ops : Int)) &&
    compressor_ops_nonnull ctype.toNat

/-- The `static unsigned int default_compression_levels[4]` array, as state. -/
def DefaultLevels : Type := Nat → Nat

def DEFAULT_COMPRESSION_LEVEL : Nat := 50

/-- Embeds `wimlib_set_default_compression_level`: returns the C return value and
the updated `default_compression_levels` array. -/
def wimlib_set_default_compression_level (d : DefaultLevels) (ctype : Int)
    (compression_level : Nat) : Int × DefaultLevels :=
  if ctype = -1 then
    (0, fun i => if i < ARRAY_LEN_compressor_ops then compression_level else d i)
  else if !compressor_ctype_valid ctype then
    (WIMLIB_ERR_INVALID_COMPRESSION_TYPE, d)
  else
    (0, fun i => if i = ctype.toNat then compression_level else d i)

/-- The two-step level defaulting performed identically at
`wimlib_get_compressor_needed_memory` lines 95-98 and
`wimlib_create_compressor` lines 133-136:
`if (compression_level == 0) compression_level = default_compression_levels[ctype];`
`if (compression_level == 0) compression_level = DEFAULT_COMPRESSION_LEVEL;` -/
def resolve_compression_level (d : DefaultLevels) (ctype : Nat)
    (compression_level : Nat) : Nat :=
  let l := if compression_level = 0 then d ctype else compression_level
  if l = 0 then DEFAULT_COMPRESSION_LEVEL else l

/-- Observable behavior of the codec vtable entries consulted by
`compress.c`, given as oracles: whether the optional function pointers are
non-`NULL`, what the external calls return, and whether `MALLOC` succeeds. -/
structure CodecEnv where
  /-- Whether `ops->get_needed_memory != NULL` -/
  has_get_needed_memory : Bool
  /-- result of `ops->get_needed_memory(max_block_size, compression_level)` -/
  get_needed_memory : Nat → Nat → Nat
  /-- Whether `ops->create_compressor != NULL` -/
  has_create_compressor : Bool
  /-- result of `ops->create_compressor(max_block_size, level, &c->private)` -/
  create_compressor_result : Int
  /-- whether `MALLOC(sizeof(*c))` succeeds -/
  malloc_ok : Bool

/-- Models `sizeof(struct wimlib_compressor)`; symbolic, never relied upon. -/
def sizeof_wimlib_compressor : Nat := 32

/-- Embeds `wimlib_get_compressor_needed_memory`. -/
def wimlib_get_compressor_needed_memory (env : CodecEnv) (d : DefaultLevels)
    (ctype : Int) (max_block_size : Nat) (compression_level : Nat) : Nat :=
  if !compressor_ctype_valid ctype then 0
  else
    let level := resolve_compression_level d ctype.toNat compression_level
    if env.has_get_needed_memory then
      sizeof_wimlib_compressor + env.get_needed_memory max_block_size level
    else
      sizeof_wimlib_compressor

/-- Observable outcome of `wimlib_create_compressor`: the return value,
whether `*c_ret` was assigned, whether a `struct wimlib_compressor`
allocation is still live on return (handed to the caller; the failing codec
path `FREE`s it), and the `(max_block_size, compression_level)` arguments
passed to the external `ops->create_compressor` call, if it was made. -/
structure CreateCompressorOutcome where
  ret : Int
  c_ret_written : Bool
  allocation_live : Bool
  create_called_with : Option (Nat × Nat)
deriving DecidableEq

/-- Embeds `wimlib_create_compressor`; `c_ret_null` records whether the caller
passed `c_ret == NULL`. -/
def wimlib_create_compressor (env : CodecEnv) (d : DefaultLevels) (ctype : Int)
    (max_block_size : Nat) (compression_level : Nat) (c_ret_null : Bool) :
    CreateCompressorOutcome :=
  if c_ret_null then ⟨WIMLIB_ERR_INVALID_PARAM, false, false, none⟩
  else if max_block_size = 0 then ⟨WIMLIB_ERR_INVALID_PARAM, false, false, none⟩
  else if !compressor_ctype_valid ctype then
    ⟨WIMLIB_ERR_INVALID_COMPRESSION_TYPE, false, false, none⟩
  else if !env.malloc_ok then ⟨WIMLIB_ERR_NOMEM, false, false, none⟩
  else if env.has_create_compressor then
    let level := resolve_compression_level d ctype.toNat compression_level
    if env.create_compressor_result ≠ 0 then
      ⟨env.create_compressor_result, false, false, some (max_block_size, level)⟩
    else
      ⟨0, true, true, some (max_block_size, level)⟩
  else
    ⟨0, true, true, none⟩

/-! ### `wimlib_compress` with `ENABLE_VERIFY_COMPRESSION`

The claims C2 and C3 concern the round-trip-verification build
(`#ifdef ENABLE_VERIFY_COMPRESSION`), so that build is embedded.  The
function either returns a `size_t` or, on the two fatal paths, calls
`abort()` and never returns; the outcome type distinguishes the two. -/

/-- Oracles for one `wimlib_compress` call: the codec result and the
results of the external calls made by the verification block. -/
structure CompressEnv where
  uncompressed_size : Nat
  max_block_size : Nat
  /-- result of `c->ops->compress(...)` -/
  codec_compressed_size : Nat
  /-- whether `MALLOC(uncompressed_size)` succeeds -/
  malloc_ok : Bool
  /-- result of `wimlib_create_decompressor(...)` -/
  create_decompressor_result : Int
  /-- result of `wimlib_decompress(...)` -/
  decompress_result : Int
  /-- result of `memcmp(uncompressed_data, buf, uncompressed_size)` -/
  memcmp_result : Int

/-- Either the function returns a `size_t`, or it calls `abort()`. -/
inductive CompressOutcome where
  | ret (compressed_size : Nat)
  | aborted
deriving DecidableEq

/-- Embeds `wimlib_compress`, `ENABLE_VERIFY_COMPRESSION` build. -/
def wimlib_compress (env : CompressEnv) : CompressOutcome :=
  let compressed_size := env.codec_compressed_size
  if compressed_size ≠ 0 then
    if !env.malloc_ok then .ret 0
    else if env.create_decompressor_result ≠ 0 then .ret 0
    else if env.decompress_result ≠ 0 then .aborted
    else if env.memcmp_result ≠ 0 then .aborted
    else .ret compressed_size
  else .ret compressed_size

/-! ## `unix_apply.c`: `unix_extract_if_empty_file`

The extract flags consulted by `unix_apply.c` are modelled as a record of
booleans (their bit encoding in `wimlib.h` is irrelevant to the claims).
The libc calls (`mknod`, `open`, `unlink`, `close`) are oracles; the
`retry_mknod` / `retry_create` loops consume a finite oracle trace of
attempt outcomes, one `(errno-or-success, unlink result)` pair per
iteration.  A real execution terminates within its (finite) trace; the
claims below only concern traces whose first entry already decides the
loop. -/

structure ExtractFlags where
  unix_data : Bool
  strict_acls : Bool
  strict_timestamps : Bool
deriving DecidableEq

/-- Outcome of one libc creation attempt: `none` models success, `some e`
models failure with `errno == e`.  The `Bool` is whether the `unlink(path)`
issued on the `EEXIST` retry path succeeds (returns 0). -/
def CreateAttempt : Type := Option Nat × Bool

/-- Result of the `retry_mknod` loop in `unix_extract_if_empty_file`. -/
inductive MknodLoopResult where
  | ok
  | eperm
  | failed
deriving DecidableEq

/-- The `retry_mknod` loop:
`if (mknod(path, mode, rdev)) { if (errno == EPERM) {...; return 0;} if
(errno == EEXIST && !unlink(path)) goto retry_mknod; ...; return
WIMLIB_ERR_MKNOD; }`.  An exhausted oracle trace is reported as `failed`
(modelling artifact; no claim exercises it). -/
def unix_mknod_loop : List CreateAttempt → MknodLoopResult
  | [] => .failed
  | (none, _) :: _ => .ok
  | (some e, unlink_ok) :: rest =>
    if e = EPERM then .eperm
    else if e = EEXIST ∧ unlink_ok then unix_mknod_loop rest
    else .failed

/-- The `retry_create` loop for the empty regular file branch:
`fd = open(path, O_TRUNC | O_CREAT | O_WRONLY | O_NOFOLLOW, 0644);` with
the same `EEXIST`-unlink retry; failure returns `WIMLIB_ERR_OPEN`. -/
def unix_open_loop : List CreateAttempt → Bool
  | [] => false
  | (none, _) :: _ => true
  | (some e, unlink_ok) :: rest =>
    if e = EEXIST ∧ unlink_ok then unix_open_loop rest
    else false

/-- Oracles for one `unix_extract_if_empty_file` call.  The dentry/inode
predicates and the results of the helper functions are recorded as
observed; `unix_set_metadata`, `unix_create_hardlinks` and
`report_file_created` are separate functions whose internals the claim
does not consult, so only their return values appear. -/
structure EmptyFileEnv where
  /-- Whether `dentry == inode_first_extraction_dentry(inode)` -/
  is_first_extraction_dentry : Bool
  /-- Result of `inode_is_directory(inode)` -/
  is_directory : Bool
  /-- Result of `inode_is_symlink(inode)` -/
  is_symlink : Bool
  /-- Result of `inode_unnamed_lte_resolved(inode)` -/
  unnamed_lte_resolved : Bool
  extract_flags : ExtractFlags
  /-- Result of `inode_get_unix_data(inode, &unix_data)` -/
  has_unix_data : Bool
  /-- Result of `S_ISREG(unix_data.mode)` -/
  unix_mode_is_reg : Bool
  mknod_attempts : List CreateAttempt
  open_attempts : List CreateAttempt
  /-- result of `unix_set_metadata(...)` -/
  set_metadata_result : Int
  /-- whether `close(fd)` succeeds -/
  close_ok : Bool
  /-- result of `unix_create_hardlinks(...)` -/
  create_hardlinks_result : Int
  /-- result of `report_file_created(&ctx->common)` -/
  report_file_created_result : Int

/-- Embeds `unix_extract_if_empty_file`; returns the C return value together with
the increment applied to `ctx->num_special_files_ignored`. -/
def unix_extract_if_empty_file (env : EmptyFileEnv) : Int × Nat :=
  if !env.is_first_extraction_dentry then (0, 0)
  else if env.is_directory || env.is_symlink || env.unnamed_lte_resolved then
    (0, 0)
  else
    let tail : Int → Int × Nat := fun ret =>
      if ret ≠ 0 then (ret, 0)
      else if env.create_hardlinks_result ≠ 0 then
        (env.create_hardlinks_result, 0)
      else (env.report_file_created_result, 0)
    if env.extract_flags.unix_data && env.has_unix_data &&
        !env.unix_mode_is_reg then
      match unix_mknod_loop env.mknod_attempts with
      | .eperm => (0, 1)
      | .failed => (WIMLIB_ERR_MKNOD, 0)
      | .ok => tail env.set_metadata_result
    else
      if !unix_open_loop env.open_attempts then (WIMLIB_ERR_OPEN, 0)
      else
        let ret := env.set_metadata_result
        let ret := if !env.close_ok ∧ ret = 0 then WIMLIB_ERR_WRITE else ret
        tail ret

/-! ## `unix_apply.c`: `unix_end_extract_stream`

The per-stream consumer state is the array `ctx->open_fds` of
`ctx->num_open_fds` open descriptors; a descriptor is identified by its
index in that array.  The embedding returns the C return value, the list
of indices on which `filedes_close` was invoked, and the final
`ctx->num_open_fds` (which `unix_cleanup_open_fds` always zeroes). -/

/-- One entry of `stream_owners(stream)`, with the results of the external
calls made for it: for a symlink owner, `unix_create_symlink` and
`unix_set_metadata`; for a regular-file owner, `unix_set_metadata` and
whether `filedes_close(fd)` succeeds. -/
inductive StreamOwner where
  | symlink (create_symlink_result : Int) (set_metadata_result : Int)
  | regular (set_metadata_result : Int) (close_ok : Bool)
deriving DecidableEq

/-- Embeds `unix_cleanup_open_fds(ctx, offset)`: closes `open_fds[offset ..
num_open_fds)` and zeroes `num_open_fds`; returns the closed indices. -/
def unix_cleanup_open_fds (num_open_fds offset : Nat) : List Nat :=
  List.range' offset (num_open_fds - offset)

/-- The owner loop of `unix_end_extract_stream`, started with `j = 0`:
returns `(ret, indices closed by the loop, final j)`.  On a failed
`filedes_close` the loop breaks before `j++`, so the index is re-closed by
the final `unix_cleanup_open_fds(ctx, j)` rather than recorded here. -/
def unix_end_loop : List StreamOwner → Nat → Int × List Nat × Nat
  | [], j => (0, [], j)
  | .symlink create_res meta_res :: rest, j =>
    if create_res ≠ 0 then (create_res, [], j)
    else if meta_res ≠ 0 then (meta_res, [], j)
    else unix_end_loop rest j
  | .regular meta_res close_ok :: rest, j =>
    if meta_res ≠ 0 then (meta_res, [], j)
    else if !close_ok then (WIMLIB_ERR_WRITE, [], j)
    else
      let r := unix_end_loop rest (j + 1)
      (r.1, j :: r.2.1, r.2.2)

/-- Embeds `unix_end_extract_stream(stream, status, _ctx)`: returns the C return
value, all indices passed to `filedes_close`, and the final
`num_open_fds`. -/
def unix_end_extract_stream (status : Int) (owners : List StreamOwner)
    (num_open_fds : Nat) : Int × List Nat × Nat :=
  if status ≠ 0 then (status, unix_cleanup_open_fds num_open_fds 0, 0)
  else
    let r := unix_end_loop owners 0
    (r.1, r.2.1 ++ unix_cleanup_open_fds num_open_fds r.2.2, 0)

/-! ## `include/wimlib/endianness.h`: byte swapping

The shift-and-mask fallback formulas are embedded.  In `bswap16` the `u16`
operands promote to (32-bit) `int`, the expression is evaluated without
truncation, and the result is truncated to `u16` on return; in `bswap32`
and `bswap64` every shift is performed at the operand's own width, hence
truncates there. -/

/-- Embeds `bswap16`: `return (n << 8) | (n >> 8);` for `u16 n`. -/
def bswap16 (n : Nat) : Nat :=
  ((n <<< 8) ||| (n >>> 8)) % 2 ^ 16

/-- Embeds the `bswap32` fallback:
`(n << 24) | ((n & 0xff00) << 8) | ((n & 0xff0000) >> 8) | (n >> 24)`
for `u32 n`. -/
def bswap32 (n : Nat) : Nat :=
  ((n <<< 24) % 2 ^ 32) ||| (((n &&& 0xff00) <<< 8) % 2 ^ 32) |||
    (((n &&& 0xff0000) >>> 8) % 2 ^ 32) ||| ((n >>> 24) % 2 ^ 32)

/-- Embeds the `bswap64` fallback:
`(n << 56) | ((n & 0xff00) << 40) | ((n & 0xff0000) << 24) |
((n & 0xff000000) << 8) | ((n & 0xff00000000) >> 8) |
((n & 0xff0000000000) >> 24) | ((n & 0xff000000000000) >> 40) | (n >> 56)`
for `u64 n`. -/
def bswap64 (n : Nat) : Nat :=
  ((n <<< 56) % 2 ^ 64) ||| (((n &&& 0xff00) <<< 40) % 2 ^ 64) |||
    (((n &&& 0xff0000) <<< 24) % 2 ^ 64) |||
    (((n &&& 0xff000000) <<< 8) % 2 ^ 64) |||
    (((n &&& 0xff00000000) >>> 8) % 2 ^ 64) |||
    (((n &&& 0xff0000000000) >>> 24) % 2 ^ 64) |||
    (((n &&& 0xff000000000000) >>> 40) % 2 ^ 64) ||| ((n >>> 56) % 2 ^ 64)

/-- The `cpu_to_le16` macro, parameterized by `WORDS_BIGENDIAN`. -/
def cpu_to_le16 (bigendian : Bool) (n : Nat) : Nat :=
  if bigendian then bswap16 n else n

/-- The `le16_to_cpu` macro, parameterized by `WORDS_BIGENDIAN`. -/
def le16_to_cpu (bigendian : Bool) (n : Nat) : Nat :=
  if bigendian then bswap16 n else n

/-- The `cpu_to_le32` macro, parameterized by `WORDS_BIGENDIAN`. -/
def cpu_to_le32 (bigendian : Bool) (n : Nat) : Nat :=
  if bigendian then bswap32 n else n

/-- The `le32_to_cpu` macro, parameterized by `WORDS_BIGENDIAN`. -/
def le32_to_cpu (bigendian : Bool) (n : Nat) : Nat :=
  if bigendian then bswap32 n else n

/-- The `cpu_to_le64` macro, parameterized by `WORDS_BIGENDIAN`. -/
def cpu_to_le64 (bigendian : Bool) (n : Nat) : Nat :=
  if bigendian then bswap64 n else n

/-- The `le64_to_cpu` macro, parameterized by `WORDS_BIGENDIAN`. -/
def le64_to_cpu (bigendian : Bool) (n : Nat) : Nat :=
  if bigendian then bswap64 n else n

/-- Byte `i` (little-endian position) of `n`. -/
def nth_byte (n i : Nat) : Nat :=
  n / 2 ^ (8 * i) % 2 ^ 8

/-- Bitwise-or of a left-shifted value with a value fitting below the
shift is addition. -/
theorem lor_mul_pow_eq_add :
    ∀ (k a b : Nat), b < 2 ^ k → a * 2 ^ k ||| b = a * 2 ^ k + b := by
  intro k
  induction k with
  | zero =>
    intro a b hb
    interval_cases b
    simp
  | succ k ih =>
    intro a b hb
    have hb2 : b = 2 * Nat.div2 b + (Nat.bodd b).toNat := by
      rw [← Nat.bit_val, Nat.bit_decomp]
    have hdb : Nat.div2 b < 2 ^ k := by
      rw [Nat.div2_val]
      rw [pow_succ] at hb
      omega
    have key : a * 2 ^ (k + 1) = Nat.bit false (a * 2 ^ k) := by
      simp [Nat.bit_val, pow_succ]
      ring
    calc a * 2 ^ (k + 1) ||| b
        = Nat.bit false (a * 2 ^ k) ||| Nat.bit (Nat.bodd b) (Nat.div2 b) := by
          rw [← key, Nat.bit_decomp]
      _ = Nat.bit (false || Nat.bodd b) (a * 2 ^ k ||| Nat.div2 b) :=
          Nat.lor_bit false (a * 2 ^ k) (Nat.bodd b) (Nat.div2 b)
      _ = Nat.bit (Nat.bodd b) (a * 2 ^ k + Nat.div2 b) := by
          rw [Bool.false_or, ih a (Nat.div2 b) hdb]
      _ = a * 2 ^ (k + 1) + b := by
          rw [Nat.bit_val, pow_succ, ← mul_assoc]
          generalize a * 2 ^ k = X
          omega

/-- Masking with a contiguous byte mask `(2^k - 1) * 2^j` extracts the bit
field at offset `j` of width `k`. -/
theorem land_byte_mask :
    ∀ (j n k : Nat), n &&& (2 ^ k - 1) * 2 ^ j = n / 2 ^ j % 2 ^ k * 2 ^ j := by
  intro j
  induction j with
  | zero =>
    intro n k
    simp [Nat.and_pow_two_sub_one_eq_mod n k]
  | succ j ih =>
    intro n k
    have hmask : (2 ^ k - 1) * 2 ^ (j + 1) =
        Nat.bit false ((2 ^ k - 1) * 2 ^ j) := by
      simp [Nat.bit_val, pow_succ]
      ring
    calc n &&& (2 ^ k - 1) * 2 ^ (j + 1)
        = Nat.bit (Nat.bodd n) (Nat.div2 n) &&&
            Nat.bit false ((2 ^ k - 1) * 2 ^ j) := by
          rw [← hmask, Nat.bit_decomp]
      _ = Nat.bit (Nat.bodd n && false)
            (Nat.div2 n &&& (2 ^ k - 1) * 2 ^ j) :=
          Nat.land_bit (Nat.bodd n) (Nat.div2 n) false ((2 ^ k - 1) * 2 ^ j)
      _ = 2 * (Nat.div2 n / 2 ^ j % 2 ^ k * 2 ^ j) := by
          rw [ih (Nat.div2 n) k, Bool.and_false, Nat.bit_val]
          simp
      _ = n / 2 ^ (j + 1) % 2 ^ k * 2 ^ (j + 1) := by
          rw [Nat.div2_val, Nat.div_div_eq_div_mul, ← pow_succ']
          rw [pow_succ]
          ring

/-- Arithmetic characterization of `bswap16` on 16-bit values. -/
theorem bswap16_eq (n : Nat) (h : n < 2 ^ 16) :
    bswap16 n = n % 2 ^ 8 * 2 ^ 8 + n / 2 ^ 8 := by
  unfold bswap16
  rw [Nat.shiftLeft_eq, Nat.shiftRight_eq_div_pow]
  rw [lor_mul_pow_eq_add 8 n (n / 2 ^ 8) (by omega)]
  omega

/-- Arithmetic characterization of `bswap32` on 32-bit values. -/
theorem bswap32_eq (n : Nat) (h : n < 2 ^ 32) :
    bswap32 n = n % 2 ^ 8 * 2 ^ 24 + n / 2 ^ 8 % 2 ^ 8 * 2 ^ 16 +
      n / 2 ^ 16 % 2 ^ 8 * 2 ^ 8 + n / 2 ^ 24 := by
  unfold bswap32
  rw [show (0xff00 : Nat) = (2 ^ 8 - 1) * 2 ^ 8 by norm_num,
    show (0xff0000 : Nat) = (2 ^ 8 - 1) * 2 ^ 16 by norm_num]
  rw [land_byte_mask 8 n 8, land_byte_mask 16 n 8]
  rw [Nat.shiftLeft_eq, Nat.shiftLeft_eq, Nat.shiftRight_eq_div_pow,
    Nat.shiftRight_eq_div_pow]
  rw [show n * 2 ^ 24 % 2 ^ 32 = n % 2 ^ 8 * 2 ^ 24 by omega]
  rw [show n / 2 ^ 8 % 2 ^ 8 * 2 ^ 8 * 2 ^ 8 % 2 ^ 32 =
    n / 2 ^ 8 % 2 ^ 8 * 2 ^ 16 by omega]
  rw [show n / 2 ^ 16 % 2 ^ 8 * 2 ^ 16 / 2 ^ 8 % 2 ^ 32 =
    n / 2 ^ 16 % 2 ^ 8 * 2 ^ 8 by omega]
  rw [show n / 2 ^ 24 % 2 ^ 32 = n / 2 ^ 24 by omega]
  rw [lor_mul_pow_eq_add 24 (n % 2 ^ 8)
    (n / 2 ^ 8 % 2 ^ 8 * 2 ^ 16) (by omega)]
  rw [show n % 2 ^ 8 * 2 ^ 24 + n / 2 ^ 8 % 2 ^ 8 * 2 ^ 16 =
    (n % 2 ^ 8 * 2 ^ 8 + n / 2 ^ 8 % 2 ^ 8) * 2 ^ 16 by ring]
  rw [lor_mul_pow_eq_add 16 (n % 2 ^ 8 * 2 ^ 8 + n / 2 ^ 8 % 2 ^ 8)
    (n / 2 ^ 16 % 2 ^ 8 * 2 ^ 8) (by omega)]
  rw [show (n % 2 ^ 8 * 2 ^ 8 + n / 2 ^ 8 % 2 ^ 8) * 2 ^ 16 +
    n / 2 ^ 16 % 2 ^ 8 * 2 ^ 8 =
    (n % 2 ^ 8 * 2 ^ 16 + n / 2 ^ 8 % 2 ^ 8 * 2 ^ 8 +
      n / 2 ^ 16 % 2 ^ 8) * 2 ^ 8 by ring]
  rw [lor_mul_pow_eq_add 8
    (n % 2 ^ 8 * 2 ^ 16 + n / 2 ^ 8 % 2 ^ 8 * 2 ^ 8 + n / 2 ^ 16 % 2 ^ 8)
    (n / 2 ^ 24) (by omega)]

/-- Arithmetic characterization of `bswap64` on 64-bit values. -/
theorem bswap64_eq (n : Nat) (h : n < 2 ^ 64) :
    bswap64 n = n % 2 ^ 8 * 2 ^ 56 + n / 2 ^ 8 % 2 ^ 8 * 2 ^ 48 +
      n / 2 ^ 16 % 2 ^ 8 * 2 ^ 40 + n / 2 ^ 24 % 2 ^ 8 * 2 ^ 32 +
      n / 2 ^ 32 % 2 ^ 8 * 2 ^ 24 + n / 2 ^ 40 % 2 ^ 8 * 2 ^ 16 +
      n / 2 ^ 48 % 2 ^ 8 * 2 ^ 8 + n / 2 ^ 56 := by
  unfold bswap64
  rw [show (0xff00 : Nat) = (2 ^ 8 - 1) * 2 ^ 8 by norm_num,
    show (0xff0000 : Nat) = (2 ^ 8 - 1) * 2 ^ 16 by norm_num,
    show (0xff000000 : Nat) = (2 ^ 8 - 1) * 2 ^ 24 by norm_num,
    show (0xff00000000 : Nat) = (2 ^ 8 - 1) * 2 ^ 32 by norm_num,
    show (0xff0000000000 : Nat) = (2 ^ 8 - 1) * 2 ^ 40 by norm_num,
    show (0xff000000000000 : Nat) = (2 ^ 8 - 1) * 2 ^ 48 by norm_num]
  rw [land_byte_mask 8 n 8, land_byte_mask 16 n 8, land_byte_mask 24 n 8,
    land_byte_mask 32 n 8, land_byte_mask 40 n 8, land_byte_mask 48 n 8]
  rw [Nat.shiftLeft_eq, Nat.shiftLeft_eq, Nat.shiftLeft_eq, Nat.shiftLeft_eq,
    Nat.shiftRight_eq_div_pow, Nat.shiftRight_eq_div_pow,
    Nat.shiftRight_eq_div_pow, Nat.shiftRight_eq_div_pow]
  rw [show n * 2 ^ 56 % 2 ^ 64 = n % 2 ^ 8 * 2 ^ 56 by omega]
  rw [show n / 2 ^ 8 % 2 ^ 8 * 2 ^ 8 * 2 ^ 40 % 2 ^ 64 =
    n / 2 ^ 8 % 2 ^ 8 * 2 ^ 48 by omega]
  rw [show n / 2 ^ 16 % 2 ^ 8 * 2 ^ 16 * 2 ^ 24 % 2 ^ 64 =
    n / 2 ^ 16 % 2 ^ 8 * 2 ^ 40 by omega]
  rw [show n / 2 ^ 24 % 2 ^ 8 * 2 ^ 24 * 2 ^ 8 % 2 ^ 64 =
    n / 2 ^ 24 % 2 ^ 8 * 2 ^ 32 by omega]
  rw [show n / 2 ^ 32 % 2 ^ 8 * 2 ^ 32 / 2 ^ 8 % 2 ^ 64 =
    n / 2 ^ 32 % 2 ^ 8 * 2 ^ 24 by omega]
  rw [show n / 2 ^ 40 % 2 ^ 8 * 2 ^ 40 / 2 ^ 24 % 2 ^ 64 =
    n / 2 ^ 40 % 2 ^ 8 * 2 ^ 16 by omega]
  rw [show n / 2 ^ 48 % 2 ^ 8 * 2 ^ 48 / 2 ^ 40 % 2 ^ 64 =
    n / 2 ^ 48 % 2 ^ 8 * 2 ^ 8 by omega]
  rw [show n / 2 ^ 56 % 2 ^ 64 = n / 2 ^ 56 by omega]
  rw [lor_mul_pow_eq_add 56 (n % 2 ^ 8)
    (n / 2 ^ 8 % 2 ^ 8 * 2 ^ 48) (by omega)]
  rw [show n % 2 ^ 8 * 2 ^ 56 + n / 2 ^ 8 % 2 ^ 8 * 2 ^ 48 =
    (n % 2 ^ 8 * 2 ^ 8 + n / 2 ^ 8 % 2 ^ 8) * 2 ^ 48 by ring]
  rw [lor_mul_pow_eq_add 48 (n % 2 ^ 8 * 2 ^ 8 + n / 2 ^ 8 % 2 ^ 8)
    (n / 2 ^ 16 % 2 ^ 8 * 2 ^ 40) (by omega)]
  rw [show (n % 2 ^ 8 * 2 ^ 8 + n / 2 ^ 8 % 2 ^ 8) * 2 ^ 48 +
    n / 2 ^ 16 % 2 ^ 8 * 2 ^ 40 =
    (n % 2 ^ 8 * 2 ^ 16 + n / 2 ^ 8 % 2 ^ 8 * 2 ^ 8 +
      n / 2 ^ 16 % 2 ^ 8) * 2 ^ 40 by ring]
  rw [lor_mul_pow_eq_add 40
    (n % 2 ^ 8 * 2 ^ 16 + n / 2 ^ 8 % 2 ^ 8 * 2 ^ 8 + n / 2 ^ 16 % 2 ^ 8)
    (n / 2 ^ 24 % 2 ^ 8 * 2 ^ 32) (by omega)]
  rw [show (n % 2 ^ 8 * 2 ^ 16 + n / 2 ^ 8 % 2 ^ 8 * 2 ^ 8 +
      n / 2 ^ 16 % 2 ^ 8) * 2 ^ 40 + n / 2 ^ 24 % 2 ^ 8 * 2 ^ 32 =
    (n % 2 ^ 8 * 2 ^ 24 + n / 2 ^ 8 % 2 ^ 8 * 2 ^ 16 +
      n / 2 ^ 16 % 2 ^ 8 * 2 ^ 8 + n / 2 ^ 24 % 2 ^ 8) * 2 ^ 32 by ring]
  rw [lor_mul_pow_eq_add 32
    (n % 2 ^ 8 * 2 ^ 24 + n / 2 ^ 8 % 2 ^ 8 * 2 ^ 16 +
      n / 2 ^ 16 % 2 ^ 8 * 2 ^ 8 + n / 2 ^ 24 % 2 ^ 8)
    (n / 2 ^ 32 % 2 ^ 8 * 2 ^ 24) (by omega)]
  rw [show (n % 2 ^ 8 * 2 ^ 24 + n / 2 ^ 8 % 2 ^ 8 * 2 ^ 16 +
      n / 2 ^ 16 % 2 ^ 8 * 2 ^ 8 + n / 2 ^ 24 % 2 ^ 8) * 2 ^ 32 +
      n / 2 ^ 32 % 2 ^ 8 * 2 ^ 24 =
    (n % 2 ^ 8 * 2 ^ 32 + n / 2 ^ 8 % 2 ^ 8 * 2 ^ 24 +
      n / 2 ^ 16 % 2 ^ 8 * 2 ^ 16 + n / 2 ^ 24 % 2 ^ 8 * 2 ^ 8 +
      n / 2 ^ 32 % 2 ^ 8) * 2 ^ 24 by ring]
  rw [lor_mul_pow_eq_add 24
    (n % 2 ^ 8 * 2 ^ 32 + n / 2 ^ 8 % 2 ^ 8 * 2 ^ 24 +
      n / 2 ^ 16 % 2 ^ 8 * 2 ^ 16 + n / 2 ^ 24 % 2 ^ 8 * 2 ^ 8 +
      n / 2 ^ 32 % 2 ^ 8)
    (n / 2 ^ 40 % 2 ^ 8 * 2 ^ 16) (by omega)]
  rw [show (n % 2 ^ 8 * 2 ^ 32 + n / 2 ^ 8 % 2 ^ 8 * 2 ^ 24 +
      n / 2 ^ 16 % 2 ^ 8 * 2 ^ 16 + n / 2 ^ 24 % 2 ^ 8 * 2 ^ 8 +
      n / 2 ^ 32 % 2 ^ 8) * 2 ^ 24 + n / 2 ^ 40 % 2 ^ 8 * 2 ^ 16 =
    (n % 2 ^ 8 * 2 ^ 40 + n / 2 ^ 8 % 2 ^ 8 * 2 ^ 32 +
      n / 2 ^ 16 % 2 ^ 8 * 2 ^ 24 + n / 2 ^ 24 % 2 ^ 8 * 2 ^ 16 +
      n / 2 ^ 32 % 2 ^ 8 * 2 ^ 8 + n / 2 ^ 40 % 2 ^ 8) * 2 ^ 16 by ring]
  rw [lor_mul_pow_eq_add 16
    (n % 2 ^ 8 * 2 ^ 40 + n / 2 ^ 8 % 2 ^ 8 * 2 ^ 32 +
      n / 2 ^ 16 % 2 ^ 8 * 2 ^ 24 + n / 2 ^ 24 % 2 ^ 8 * 2 ^ 16 +
      n / 2 ^ 32 % 2 ^ 8 * 2 ^ 8 + n / 2 ^ 40 % 2 ^ 8)
    (n / 2 ^ 48 % 2 ^ 8 * 2 ^ 8) (by omega)]
  rw [show (n % 2 ^ 8 * 2 ^ 40 + n / 2 ^ 8 % 2 ^ 8 * 2 ^ 32 +
      n / 2 ^ 16 % 2 ^ 8 * 2 ^ 24 + n / 2 ^ 24 % 2 ^ 8 * 2 ^ 16 +
      n / 2 ^ 32 % 2 ^ 8 * 2 ^ 8 + n / 2 ^ 40 % 2 ^ 8) * 2 ^ 16 +
      n / 2 ^ 48 % 2 ^ 8 * 2 ^ 8 =
    (n % 2 ^ 8 * 2 ^ 48 + n / 2 ^ 8 % 2 ^ 8 * 2 ^ 40 +
      n / 2 ^ 16 % 2 ^ 8 * 2 ^ 32 + n / 2 ^ 24 % 2 ^ 8 * 2 ^ 24 +
      n / 2 ^ 32 % 2 ^ 8 * 2 ^ 16 + n / 2 ^ 40 % 2 ^ 8 * 2 ^ 8 +
      n / 2 ^ 48 % 2 ^ 8) * 2 ^ 8 by ring]
  rw [lor_mul_pow_eq_add 8
    (n % 2 ^ 8 * 2 ^ 48 + n / 2 ^ 8 % 2 ^ 8 * 2 ^ 40 +
      n / 2 ^ 16 % 2 ^ 8 * 2 ^ 32 + n / 2 ^ 24 % 2 ^ 8 * 2 ^ 24 +
      n / 2 ^ 32 % 2 ^ 8 * 2 ^ 16 + n / 2 ^ 40 % 2 ^ 8 * 2 ^ 8 +
      n / 2 ^ 48 % 2 ^ 8)
    (n / 2 ^ 56) (by omega)]

/-! ## Claim theorems -/

/-- C10: `wim_has_metadata` holds for every `WIMStruct` whose header
`image_count` is 0, even when its `image_metadata` array is `NULL`; when
`image_count` is nonzero, it holds exactly when `image_metadata` is
non-`NULL`. -/
theorem C10_wim_has_metadata (wim : WIMStruct) :
    (wim.hdr.image_count = 0 → wim_has_metadata wim = true) ∧
    (wim.hdr.image_count ≠ 0 →
      (wim_has_metadata wim = true ↔ wim.image_metadata ≠ none)) := by
  constructor
  · intro h
    simp [wim_has_metadata, h]
  · intro h
    cases hm : wim.image_metadata <;> simp [wim_has_metadata, hm, h]

/-- Witness for C10 at concrete inputs: a `WIMStruct` with zero images and
`NULL` metadata has metadata; one with 3 images and `NULL` metadata does
not. -/
theorem C10_wim_has_metadata_witness :
    wim_has_metadata ⟨none, ⟨0, ⟨5⟩⟩⟩ = true ∧
    ¬ wim_has_metadata ⟨none, ⟨3, ⟨5⟩⟩⟩ = true := by
  refine ⟨(C10_wim_has_metadata ⟨none, ⟨0, ⟨5⟩⟩⟩).1 rfl, fun hmd => ?_⟩
  exact ((C10_wim_has_metadata ⟨none, ⟨3, ⟨5⟩⟩⟩).2 (by decide)).mp hmd rfl

/-- C6: `check_wim_integrity` returns exactly one of `WIM_INTEGRITY_OK`
(0), `WIM_INTEGRITY_NOT_OK` (-1), `WIM_INTEGRITY_NONEXISTENT` (-2), and
returns `WIM_INTEGRITY_NONEXISTENT` precisely when the header's
integrity-table resource header has `offset_in_wim = 0`. -/
theorem C6_check_wim_integrity (wim : WIMStruct) (hashes_match : Bool) :
    (check_wim_integrity wim hashes_match = WIM_INTEGRITY_OK ∨
      check_wim_integrity wim hashes_match = WIM_INTEGRITY_NOT_OK ∨
      check_wim_integrity wim hashes_match = WIM_INTEGRITY_NONEXISTENT) ∧
    (check_wim_integrity wim hashes_match = WIM_INTEGRITY_NONEXISTENT ↔
      wim.hdr.integrity_table_reshdr.offset_in_wim = 0) := by
  by_cases h : wim.hdr.integrity_table_reshdr.offset_in_wim = 0 <;>
    cases hashes_match <;>
      simp [check_wim_integrity, wim_has_integrity_table, h,
        WIM_INTEGRITY_OK, WIM_INTEGRITY_NOT_OK, WIM_INTEGRITY_NONEXISTENT]

/-- C9: the path-buffer index stays in {0, 1} under both
`unix_build_extraction_path` and `unix_reuse_pathbuf`, a reuse followed by
a build uses the very buffer of the immediately preceding build, and the
unsigned wraparound at 0 lands on index 1 because
`0xFFFFFFFF % 2 = 1`. -/
theorem C9_pathbuf_cycle (w : Nat) (h : w < NUM_PATHBUFS) :
    ((unix_build_extraction_path_idx w).2 < NUM_PATHBUFS ∧
      unix_reuse_pathbuf_idx w < NUM_PATHBUFS) ∧
    (unix_build_extraction_path_idx
        (unix_reuse_pathbuf_idx (unix_build_extraction_path_idx w).2)).1 =
      (unix_build_extraction_path_idx w).1 ∧
    unix_reuse_pathbuf_idx 0 = 1 := by
  unfold unix_build_extraction_path_idx unix_reuse_pathbuf_idx NUM_PATHBUFS
  unfold NUM_PATHBUFS at h
  interval_cases w <;> decide

/-- Witness for C9 at `which_pathbuf = 0`. -/
theorem C9_pathbuf_cycle_witness :
    (unix_build_extraction_path_idx
        (unix_reuse_pathbuf_idx (unix_build_extraction_path_idx 0).2)).1 =
      (unix_build_extraction_path_idx 0).1 :=
  (C9_pathbuf_cycle 0 (by decide)).2.1

/-- Reversing the bytes of a 4-byte little-endian sum, arithmetically. -/
theorem byte_sum32 (x0 x1 x2 x3 : Nat) (h0 : x0 < 2 ^ 8) (h1 : x1 < 2 ^ 8)
    (h2 : x2 < 2 ^ 8) (h3 : x3 < 2 ^ 8) :
    (x0 + 2 ^ 8 * x1 + 2 ^ 16 * x2 + 2 ^ 24 * x3) % 2 ^ 8 * 2 ^ 24 +
      (x0 + 2 ^ 8 * x1 + 2 ^ 16 * x2 + 2 ^ 24 * x3) / 2 ^ 8 % 2 ^ 8 * 2 ^ 16 +
      (x0 + 2 ^ 8 * x1 + 2 ^ 16 * x2 + 2 ^ 24 * x3) / 2 ^ 16 % 2 ^ 8 * 2 ^ 8 +
      (x0 + 2 ^ 8 * x1 + 2 ^ 16 * x2 + 2 ^ 24 * x3) / 2 ^ 24 =
    x3 + 2 ^ 8 * x2 + 2 ^ 16 * x1 + 2 ^ 24 * x0 := by
  omega

/-- The bytes of an 8-byte little-endian sum. -/
theorem bytes64_extract (x0 x1 x2 x3 x4 x5 x6 x7 : Nat) (h0 : x0 < 2 ^ 8)
    (h1 : x1 < 2 ^ 8) (h2 : x2 < 2 ^ 8) (h3 : x3 < 2 ^ 8) (h4 : x4 < 2 ^ 8)
    (h5 : x5 < 2 ^ 8) (h6 : x6 < 2 ^ 8) (h7 : x7 < 2 ^ 8) :
    (x0 + 2 ^ 8 * x1 + 2 ^ 16 * x2 + 2 ^ 24 * x3 + 2 ^ 32 * x4 +
        2 ^ 40 * x5 + 2 ^ 48 * x6 + 2 ^ 56 * x7) % 2 ^ 8 = x0 ∧
    (x0 + 2 ^ 8 * x1 + 2 ^ 16 * x2 + 2 ^ 24 * x3 + 2 ^ 32 * x4 +
        2 ^ 40 * x5 + 2 ^ 48 * x6 + 2 ^ 56 * x7) / 2 ^ 8 % 2 ^ 8 = x1 ∧
    (x0 + 2 ^ 8 * x1 + 2 ^ 16 * x2 + 2 ^ 24 * x3 + 2 ^ 32 * x4 +
        2 ^ 40 * x5 + 2 ^ 48 * x6 + 2 ^ 56 * x7) / 2 ^ 16 % 2 ^ 8 = x2 ∧
    (x0 + 2 ^ 8 * x1 + 2 ^ 16 * x2 + 2 ^ 24 * x3 + 2 ^ 32 * x4 +
        2 ^ 40 * x5 + 2 ^ 48 * x6 + 2 ^ 56 * x7) / 2 ^ 24 % 2 ^ 8 = x3 ∧
    (x0 + 2 ^ 8 * x1 + 2 ^ 16 * x2 + 2 ^ 24 * x3 + 2 ^ 32 * x4 +
        2 ^ 40 * x5 + 2 ^ 48 * x6 + 2 ^ 56 * x7) / 2 ^ 32 % 2 ^ 8 = x4 ∧
    (x0 + 2 ^ 8 * x1 + 2 ^ 16 * x2 + 2 ^ 24 * x3 + 2 ^ 32 * x4 +
        2 ^ 40 * x5 + 2 ^ 48 * x6 + 2 ^ 56 * x7) / 2 ^ 40 % 2 ^ 8 = x5 ∧
    (x0 + 2 ^ 8 * x1 + 2 ^ 16 * x2 + 2 ^ 24 * x3 + 2 ^ 32 * x4 +
        2 ^ 40 * x5 + 2 ^ 48 * x6 + 2 ^ 56 * x7) / 2 ^ 48 % 2 ^ 8 = x6 ∧
    (x0 + 2 ^ 8 * x1 + 2 ^ 16 * x2 + 2 ^ 24 * x3 + 2 ^ 32 * x4 +
        2 ^ 40 * x5 + 2 ^ 48 * x6 + 2 ^ 56 * x7) / 2 ^ 56 = x7 :=
  ⟨by omega, by omega, by omega, by omega, by omega, by omega, by omega,
    by omega⟩

/-- The `nth_byte` form of `bytes64_extract`. -/
theorem bytes64_nth (x0 x1 x2 x3 x4 x5 x6 x7 : Nat) (h0 : x0 < 2 ^ 8)
    (h1 : x1 < 2 ^ 8) (h2 : x2 < 2 ^ 8) (h3 : x3 < 2 ^ 8) (h4 : x4 < 2 ^ 8)
    (h5 : x5 < 2 ^ 8) (h6 : x6 < 2 ^ 8) (h7 : x7 < 2 ^ 8) :
    nth_byte (x0 + 2 ^ 8 * x1 + 2 ^ 16 * x2 + 2 ^ 24 * x3 + 2 ^ 32 * x4 +
        2 ^ 40 * x5 + 2 ^ 48 * x6 + 2 ^ 56 * x7) 0 = x0 ∧
    nth_byte (x0 + 2 ^ 8 * x1 + 2 ^ 16 * x2 + 2 ^ 24 * x3 + 2 ^ 32 * x4 +
        2 ^ 40 * x5 + 2 ^ 48 * x6 + 2 ^ 56 * x7) 1 = x1 ∧
    nth_byte (x0 + 2 ^ 8 * x1 + 2 ^ 16 * x2 + 2 ^ 24 * x3 + 2 ^ 32 * x4 +
        2 ^ 40 * x5 + 2 ^ 48 * x6 + 2 ^ 56 * x7) 2 = x2 ∧
    nth_byte (x0 + 2 ^ 8 * x1 + 2 ^ 16 * x2 + 2 ^ 24 * x3 + 2 ^ 32 * x4 +
        2 ^ 40 * x5 + 2 ^ 48 * x6 + 2 ^ 56 * x7) 3 = x3 ∧
    nth_byte (x0 + 2 ^ 8 * x1 + 2 ^ 16 * x2 + 2 ^ 24 * x3 + 2 ^ 32 * x4 +
        2 ^ 40 * x5 + 2 ^ 48 * x6 + 2 ^ 56 * x7) 4 = x4 ∧
    nth_byte (x0 + 2 ^ 8 * x1 + 2 ^ 16 * x2 + 2 ^ 24 * x3 + 2 ^ 32 * x4 +
        2 ^ 40 * x5 + 2 ^ 48 * x6 + 2 ^ 56 * x7) 5 = x5 ∧
    nth_byte (x0 + 2 ^ 8 * x1 + 2 ^ 16 * x2 + 2 ^ 24 * x3 + 2 ^ 32 * x4 +
        2 ^ 40 * x5 + 2 ^ 48 * x6 + 2 ^ 56 * x7) 6 = x6 ∧
    nth_byte (x0 + 2 ^ 8 * x1 + 2 ^ 16 * x2 + 2 ^ 24 * x3 + 2 ^ 32 * x4 +
        2 ^ 40 * x5 + 2 ^ 48 * x6 + 2 ^ 56 * x7) 7 = x7 := by
  refine ⟨?_, ?_, ?_, ?_, ?_, ?_, ?_, ?_⟩ <;>
    · simp only [nth_byte]
      norm_num
      omega

/-- The bytes of a 4-byte little-endian sum, in `nth_byte` form. -/
theorem bytes32_nth (x0 x1 x2 x3 : Nat) (h0 : x0 < 2 ^ 8) (h1 : x1 < 2 ^ 8)
    (h2 : x2 < 2 ^ 8) (h3 : x3 < 2 ^ 8) :
    nth_byte (x0 + 2 ^ 8 * x1 + 2 ^ 16 * x2 + 2 ^ 24 * x3) 0 = x0 ∧
    nth_byte (x0 + 2 ^ 8 * x1 + 2 ^ 16 * x2 + 2 ^ 24 * x3) 1 = x1 ∧
    nth_byte (x0 + 2 ^ 8 * x1 + 2 ^ 16 * x2 + 2 ^ 24 * x3) 2 = x2 ∧
    nth_byte (x0 + 2 ^ 8 * x1 + 2 ^ 16 * x2 + 2 ^ 24 * x3) 3 = x3 := by
  refine ⟨?_, ?_, ?_, ?_⟩ <;>
    · simp only [nth_byte]
      norm_num
      omega

/-- Reversing the bytes of an 8-byte little-endian sum, arithmetically. -/
theorem byte_sum64 (x0 x1 x2 x3 x4 x5 x6 x7 : Nat) (h0 : x0 < 2 ^ 8)
    (h1 : x1 < 2 ^ 8) (h2 : x2 < 2 ^ 8) (h3 : x3 < 2 ^ 8) (h4 : x4 < 2 ^ 8)
    (h5 : x5 < 2 ^ 8) (h6 : x6 < 2 ^ 8) (h7 : x7 < 2 ^ 8) :
    (x0 + 2 ^ 8 * x1 + 2 ^ 16 * x2 + 2 ^ 24 * x3 + 2 ^ 32 * x4 +
        2 ^ 40 * x5 + 2 ^ 48 * x6 + 2 ^ 56 * x7) % 2 ^ 8 * 2 ^ 56 +
      (x0 + 2 ^ 8 * x1 + 2 ^ 16 * x2 + 2 ^ 24 * x3 + 2 ^ 32 * x4 +
        2 ^ 40 * x5 + 2 ^ 48 * x6 + 2 ^ 56 * x7) / 2 ^ 8 % 2 ^ 8 * 2 ^ 48 +
      (x0 + 2 ^ 8 * x1 + 2 ^ 16 * x2 + 2 ^ 24 * x3 + 2 ^ 32 * x4 +
        2 ^ 40 * x5 + 2 ^ 48 * x6 + 2 ^ 56 * x7) / 2 ^ 16 % 2 ^ 8 * 2 ^ 40 +
      (x0 + 2 ^ 8 * x1 + 2 ^ 16 * x2 + 2 ^ 24 * x3 + 2 ^ 32 * x4 +
        2 ^ 40 * x5 + 2 ^ 48 * x6 + 2 ^ 56 * x7) / 2 ^ 24 % 2 ^ 8 * 2 ^ 32 +
      (x0 + 2 ^ 8 * x1 + 2 ^ 16 * x2 + 2 ^ 24 * x3 + 2 ^ 32 * x4 +
        2 ^ 40 * x5 + 2 ^ 48 * x6 + 2 ^ 56 * x7) / 2 ^ 32 % 2 ^ 8 * 2 ^ 24 +
      (x0 + 2 ^ 8 * x1 + 2 ^ 16 * x2 + 2 ^ 24 * x3 + 2 ^ 32 * x4 +
        2 ^ 40 * x5 + 2 ^ 48 * x6 + 2 ^ 56 * x7) / 2 ^ 40 % 2 ^ 8 * 2 ^ 16 +
      (x0 + 2 ^ 8 * x1 + 2 ^ 16 * x2 + 2 ^ 24 * x3 + 2 ^ 32 * x4 +
        2 ^ 40 * x5 + 2 ^ 48 * x6 + 2 ^ 56 * x7) / 2 ^ 48 % 2 ^ 8 * 2 ^ 8 +
      (x0 + 2 ^ 8 * x1 + 2 ^ 16 * x2 + 2 ^ 24 * x3 + 2 ^ 32 * x4 +
        2 ^ 40 * x5 + 2 ^ 48 * x6 + 2 ^ 56 * x7) / 2 ^ 56 =
    x7 + 2 ^ 8 * x6 + 2 ^ 16 * x5 + 2 ^ 24 * x4 + 2 ^ 32 * x3 +
      2 ^ 40 * x2 + 2 ^ 48 * x1 + 2 ^ 56 * x0 := by
  obtain ⟨e0, e1, e2, e3, e4, e5, e6, e7⟩ :=
    bytes64_extract x0 x1 x2 x3 x4 x5 x6 x7 h0 h1 h2 h3 h4 h5 h6 h7
  rw [e0, e1, e2, e3, e4, e5, e6, e7]
  ring

/-- C7: the shift-and-mask byte-swap helpers `bswap16`, `bswap32`,
`bswap64` reverse the byte order of their argument, hence each is an
involution, and the `cpu_to_leN` / `leN_to_cpu` macros are exact mutual
inverses on both little-endian and big-endian hosts. -/
theorem C7_bswap_reverses_bytes (n : Nat) :
    (n < 2 ^ 16 →
      bswap16 n = nth_byte n 1 + 2 ^ 8 * nth_byte n 0 ∧
      bswap16 (bswap16 n) = n ∧
      (∀ bigendian, le16_to_cpu bigendian (cpu_to_le16 bigendian n) = n ∧
        cpu_to_le16 bigendian (le16_to_cpu bigendian n) = n)) ∧
    (n < 2 ^ 32 →
      bswap32 n = nth_byte n 3 + 2 ^ 8 * nth_byte n 2 + 2 ^ 16 * nth_byte n 1 +
        2 ^ 24 * nth_byte n 0 ∧
      bswap32 (bswap32 n) = n ∧
      (∀ bigendian, le32_to_cpu bigendian (cpu_to_le32 bigendian n) = n ∧
        cpu_to_le32 bigendian (le32_to_cpu bigendian n) = n)) ∧
    (n < 2 ^ 64 →
      bswap64 n = nth_byte n 7 + 2 ^ 8 * nth_byte n 6 + 2 ^ 16 * nth_byte n 5 +
        2 ^ 24 * nth_byte n 4 + 2 ^ 32 * nth_byte n 3 + 2 ^ 40 * nth_byte n 2 +
        2 ^ 48 * nth_byte n 1 + 2 ^ 56 * nth_byte n 0 ∧
      bswap64 (bswap64 n) = n ∧
      (∀ bigendian, le64_to_cpu bigendian (cpu_to_le64 bigendian n) = n ∧
        cpu_to_le64 bigendian (le64_to_cpu bigendian n) = n)) := by
  refine ⟨fun h => ?_, fun h => ?_, fun h => ?_⟩
  · have h1 := bswap16_eq n h
    have hb : bswap16 n < 2 ^ 16 := by omega
    have h2 := bswap16_eq (bswap16 n) hb
    have hinv : bswap16 (bswap16 n) = n := by omega
    refine ⟨?_, hinv, ?_⟩
    · simp only [nth_byte]
      norm_num
      omega
    · intro bigendian
      cases bigendian <;> simp [le16_to_cpu, cpu_to_le16, hinv]
  · obtain ⟨x0, x1, x2, x3, hx0, hx1, hx2, hx3, hn⟩ :
        ∃ x0 x1 x2 x3, x0 < 2 ^ 8 ∧ x1 < 2 ^ 8 ∧ x2 < 2 ^ 8 ∧ x3 < 2 ^ 8 ∧
          n = x0 + 2 ^ 8 * x1 + 2 ^ 16 * x2 + 2 ^ 24 * x3 :=
      ⟨n % 2 ^ 8, n / 2 ^ 8 % 2 ^ 8, n / 2 ^ 16 % 2 ^ 8, n / 2 ^ 24,
        by omega, by omega, by omega, by omega, by omega⟩
    have h1 := bswap32_eq n h
    have h1x : bswap32 n = x3 + 2 ^ 8 * x2 + 2 ^ 16 * x1 + 2 ^ 24 * x0 := by
      rw [h1, hn]
      exact byte_sum32 x0 x1 x2 x3 hx0 hx1 hx2 hx3
    have hb : bswap32 n < 2 ^ 32 := by omega
    have h2 := bswap32_eq (bswap32 n) hb
    have hinv : bswap32 (bswap32 n) = n := by
      rw [h2, h1x, hn]
      exact byte_sum32 x3 x2 x1 x0 hx3 hx2 hx1 hx0
    refine ⟨?_, hinv, ?_⟩
    · obtain ⟨nb0, nb1, nb2, nb3⟩ := bytes32_nth x0 x1 x2 x3 hx0 hx1 hx2 hx3
      rw [h1x, hn, nb3, nb2, nb1, nb0]
    · intro bigendian
      cases bigendian <;> simp [le32_to_cpu, cpu_to_le32, hinv]
  · obtain ⟨x0, x1, x2, x3, x4, x5, x6, x7,
        hx0, hx1, hx2, hx3, hx4, hx5, hx6, hx7, hn⟩ :
        ∃ x0 x1 x2 x3 x4 x5 x6 x7,
          x0 < 2 ^ 8 ∧ x1 < 2 ^ 8 ∧ x2 < 2 ^ 8 ∧ x3 < 2 ^ 8 ∧
          x4 < 2 ^ 8 ∧ x5 < 2 ^ 8 ∧ x6 < 2 ^ 8 ∧ x7 < 2 ^ 8 ∧
          n = x0 + 2 ^ 8 * x1 + 2 ^ 16 * x2 + 2 ^ 24 * x3 + 2 ^ 32 * x4 +
            2 ^ 40 * x5 + 2 ^ 48 * x6 + 2 ^ 56 * x7 :=
      ⟨n % 2 ^ 8, n / 2 ^ 8 % 2 ^ 8, n / 2 ^ 16 % 2 ^ 8, n / 2 ^ 24 % 2 ^ 8,
        n / 2 ^ 32 % 2 ^ 8, n / 2 ^ 40 % 2 ^ 8, n / 2 ^ 48 % 2 ^ 8,
        n / 2 ^ 56,
        by omega, by omega, by omega, by omega, by omega, by omega, by omega,
        by omega, by omega⟩
    have h1 := bswap64_eq n h
    have h1x : bswap64 n = x7 + 2 ^ 8 * x6 + 2 ^ 16 * x5 + 2 ^ 24 * x4 +
        2 ^ 32 * x3 + 2 ^ 40 * x2 + 2 ^ 48 * x1 + 2 ^ 56 * x0 := by
      rw [h1, hn]
      exact byte_sum64 x0 x1 x2 x3 x4 x5 x6 x7 hx0 hx1 hx2 hx3 hx4 hx5 hx6 hx7
    have hb : bswap64 n < 2 ^ 64 := by omega
    have h2 := bswap64_eq (bswap64 n) hb
    have hinv : bswap64 (bswap64 n) = n := by
      rw [h2, h1x, hn]
      exact byte_sum64 x7 x6 x5 x4 x3 x2 x1 x0 hx7 hx6 hx5 hx4 hx3 hx2 hx1 hx0
    refine ⟨?_, hinv, ?_⟩
    · obtain ⟨nb0, nb1, nb2, nb3, nb4, nb5, nb6, nb7⟩ :=
        bytes64_nth x0 x1 x2 x3 x4 x5 x6 x7 hx0 hx1 hx2 hx3 hx4 hx5 hx6 hx7
      rw [h1x, hn, nb7, nb6, nb5, nb4, nb3, nb2, nb1, nb0]
    · intro bigendian
      cases bigendian <;> simp [le64_to_cpu, cpu_to_le64, hinv]

/-- Witness for C7 at concrete inputs. -/
theorem C7_bswap_reverses_bytes_witness :
    bswap16 (bswap16 0x1234) = 0x1234 ∧
    bswap32 (bswap32 0xdeadbeef) = 0xdeadbeef ∧
    bswap64 (bswap64 0x0123456789abcdef) = 0x0123456789abcdef :=
  ⟨((C7_bswap_reverses_bytes 0x1234).1 (by norm_num)).2.1,
   ((C7_bswap_reverses_bytes 0xdeadbeef).2.1 (by norm_num)).2.1,
   ((C7_bswap_reverses_bytes 0x0123456789abcdef).2.2 (by norm_num)).2.1⟩

/-- C3: for every block satisfying `uncompressed_size <= max_block_size`,
`wimlib_compress` returns either the codec's compressed output size or 0;
0 means incompressible (store raw), not an error, and in particular the
verification-setup failures (buffer allocation failure, decompressor
creation failure) also return 0 rather than a fatal error. -/
theorem C3_compress_returns_codec_size_or_zero (env : CompressEnv)
    (hpre : env.uncompressed_size ≤ env.max_block_size) :
    (∀ s, wimlib_compress env = CompressOutcome.ret s →
      s = env.codec_compressed_size ∨ s = 0) ∧
    (env.codec_compressed_size ≠ 0 → env.malloc_ok = false →
      wimlib_compress env = CompressOutcome.ret 0) ∧
    (env.codec_compressed_size ≠ 0 → env.malloc_ok = true →
      env.create_decompressor_result ≠ 0 →
      wimlib_compress env = CompressOutcome.ret 0) := by
  refine ⟨?_, ?_, ?_⟩
  · intro s
    unfold wimlib_compress
    by_cases hcs : env.codec_compressed_size = 0 <;> split_ifs <;> simp_all
  · intro h1 h2
    unfold wimlib_compress
    split_ifs <;> simp_all
  · intro h1 h2 h3
    unfold wimlib_compress
    split_ifs <;> simp_all

/-- Witness for C3 at a concrete input: codec produced 5 bytes but the
verification buffer allocation failed, so the call returns 0. -/
theorem C3_compress_returns_codec_size_or_zero_witness :
    wimlib_compress ⟨10, 32768, 5, false, 0, 0, 0⟩ = CompressOutcome.ret 0 :=
  (C3_compress_returns_codec_size_or_zero ⟨10, 32768, 5, false, 0, 0, 0⟩
    (by norm_num)).2.1 (by norm_num) rfl

/-- Counterexample for C2: at a block whose compressed form fails the
round-trip comparison (`memcmp != 0`), `wimlib_compress` calls `abort()`
and never returns, so no corruption error code is propagated to the
caller (the function's only return channel is a `size_t` block size). -/
theorem C2_counterexample_mismatch_aborts_not_returns :
    wimlib_compress ⟨4, 32768, 3, true, 0, 0, 1⟩ =
      CompressOutcome.aborted := by
  rfl

/-- C2 (amended): when round-trip verification is enabled, a decompression
failure or a comparison mismatch on the chunk just produced is fatal: the
process is terminated via `abort()` — the write never completes and no
value (in particular no error code) is returned to the caller. -/
theorem C2_roundtrip_mismatch_is_fatal (env : CompressEnv)
    (hpre : env.uncompressed_size ≤ env.max_block_size)
    (h1 : env.codec_compressed_size ≠ 0) (h2 : env.malloc_ok = true)
    (h3 : env.create_decompressor_result = 0)
    (h4 : env.decompress_result ≠ 0 ∨ env.memcmp_result ≠ 0) :
    wimlib_compress env = CompressOutcome.aborted := by
  unfold wimlib_compress
  split_ifs <;> simp_all

/-- Witness for C2 (amended) at a concrete input with a decompression
failure. -/
theorem C2_roundtrip_mismatch_is_fatal_witness :
    wimlib_compress ⟨4, 32768, 3, true, 0, 5, 0⟩ =
      CompressOutcome.aborted :=
  C2_roundtrip_mismatch_is_fatal ⟨4, 32768, 3, true, 0, 5, 0⟩ (by norm_num)
    (by norm_num) rfl rfl (Or.inl (by norm_num))

/-- C4: an unsupported codec id (with otherwise well-formed arguments)
yields `WIMLIB_ERR_INVALID_COMPRESSION_TYPE` with no side effects; a NULL
`c_ret` or a zero `max_block_size` yields `WIMLIB_ERR_INVALID_PARAM` with
no side effects; and a failing codec `create_compressor` frees the
partially-initialized compressor and returns the codec's error code. -/
theorem C4_create_compressor_validation (env : CodecEnv) (d : DefaultLevels)
    (ctype : Int) (max_block_size compression_level : Nat)
    (c_ret_null : Bool) :
    (compressor_ctype_valid ctype = false → c_ret_null = false →
      max_block_size ≠ 0 →
      wimlib_create_compressor env d ctype max_block_size compression_level
          c_ret_null =
        ⟨WIMLIB_ERR_INVALID_COMPRESSION_TYPE, false, false, none⟩) ∧
    (c_ret_null = true ∨ max_block_size = 0 →
      wimlib_create_compressor env d ctype max_block_size compression_level
          c_ret_null =
        ⟨WIMLIB_ERR_INVALID_PARAM, false, false, none⟩) ∧
    (c_ret_null = false → max_block_size ≠ 0 →
      compressor_ctype_valid ctype = true → env.malloc_ok = true →
      env.has_create_compressor = true → env.create_compressor_result ≠ 0 →
      (wimlib_create_compressor env d ctype max_block_size compression_level
          c_ret_null).ret = env.create_compressor_result ∧
      (wimlib_create_compressor env d ctype max_block_size compression_level
          c_ret_null).allocation_live = false ∧
      (wimlib_create_compressor env d ctype max_block_size compression_level
          c_ret_null).c_ret_written = false) := by
  unfold wimlib_create_compressor
  split_ifs <;> simp_all

/-- Witness for C4 at concrete inputs: codec id 7 is unsupported. -/
theorem C4_create_compressor_validation_witness :
    wimlib_create_compressor ⟨true, fun _ _ => 0, true, 0, true⟩
        (fun _ => 0) 7 32768 50 false =
      ⟨WIMLIB_ERR_INVALID_COMPRESSION_TYPE, false, false, none⟩ :=
  (C4_create_compressor_validation ⟨true, fun _ _ => 0, true, 0, true⟩
    (fun _ => 0) 7 32768 50 false).1 (by decide) rfl (by norm_num)

/-- The function `resolve_compression_level` is idempotent: resolving an
already-resolved level changes nothing (the resolved level is never 0). -/
theorem resolve_compression_level_idem (d : DefaultLevels) (c level : Nat) :
    resolve_compression_level d c (resolve_compression_level d c level) =
      resolve_compression_level d c level := by
  unfold resolve_compression_level DEFAULT_COMPRESSION_LEVEL
  split_ifs <;> simp_all

/-- C8: with `compression_level == 0` the level actually used is the
process-wide default set by `wimlib_set_default_compression_level` for
that codec type, or `DEFAULT_COMPRESSION_LEVEL` (50) if none was set;
`wimlib_set_default_compression_level` with `ctype == -1` sets every
codec's default and returns 0, with a valid ctype sets that codec's
default and returns 0, and with an invalid non-(-1) ctype returns
`WIMLIB_ERR_INVALID_COMPRESSION_TYPE` changing nothing. -/
theorem C8_default_compression_levels (env : CodecEnv) (d : DefaultLevels)
    (ctype : Int) (level max_block_size compression_level : Nat) :
    ((wimlib_set_default_compression_level d (-1) level).1 = 0 ∧
      ∀ i, i < ARRAY_LEN_compressor_ops →
        (wimlib_set_default_compression_level d (-1) level).2 i = level) ∧
    (compressor_ctype_valid ctype = true →
      (wimlib_set_default_compression_level d ctype level).1 = 0 ∧
      (wimlib_set_default_compression_level d ctype level).2 ctype.toNat =
        level) ∧
    (ctype ≠ -1 → compressor_ctype_valid ctype = false →
      (wimlib_set_default_compression_level d ctype level).1 =
        WIMLIB_ERR_INVALID_COMPRESSION_TYPE ∧
      (wimlib_set_default_compression_level d ctype level).2 = d) ∧
    (resolve_compression_level d ctype.toNat 0 =
      if d ctype.toNat = 0 then DEFAULT_COMPRESSION_LEVEL
      else d ctype.toNat) ∧
    (wimlib_get_compressor_needed_memory env d ctype max_block_size 0 =
      wimlib_get_compressor_needed_memory env d ctype max_block_size
        (resolve_compression_level d ctype.toNat 0)) ∧
    (compressor_ctype_valid ctype = true → env.malloc_ok = true →
      env.has_create_compressor = true → max_block_size ≠ 0 →
      (wimlib_create_compressor env d ctype max_block_size 0
          false).create_called_with =
        some (max_block_size,
          if d ctype.toNat = 0 then DEFAULT_COMPRESSION_LEVEL
          else d ctype.toNat)) := by
  refine ⟨⟨?_, ?_⟩, ?_, ?_, ?_, ?_, ?_⟩
  · simp [wimlib_set_default_compression_level]
  · intro i hi
    simp [wimlib_set_default_compression_level, hi]
  · intro hv
    have hne : ctype ≠ -1 := by
      intro hc
      rw [hc] at hv
      simp [compressor_ctype_valid, compressor_ops_nonnull] at hv
    simp [wimlib_set_default_compression_level, hne, hv]
  · intro hne hv
    simp [wimlib_set_default_compression_level, hne, hv]
  · simp [resolve_compression_level]
  · rw [wimlib_get_compressor_needed_memory, wimlib_get_compressor_needed_memory,
      resolve_compression_level_idem]
  · intro hv hm hc hmbs
    simp [wimlib_create_compressor, hv, hm, hc, hmbs, resolve_compression_level]
    split_ifs <;> simp

/-- Counterexample for C1: with both strict-mode flags
(`WIMLIB_EXTRACT_FLAG_STRICT_ACLS`, `STRICT_TIMESTAMPS`) requested,
`mknod` failing with `EPERM` on a special file is still downgraded: the
call returns 0 (success) and increments `num_special_files_ignored`,
instead of reporting the error to the caller as the claim states. -/
theorem C1_counterexample_strict_mode_still_downgrades :
    unix_extract_if_empty_file
        ⟨true, false, false, false, ⟨true, true, true⟩, true, false,
          [(some EPERM, true)], [], 0, true, 0, 0⟩ = (0, 1) := by
  rfl

/-- C1 (amended): during UNIX apply with UNIX-data mode enabled, when
`mknod` for a special file fails with `EPERM`, the error is
unconditionally downgraded to a warning: `num_special_files_ignored` is
incremented and the function returns 0 (the file is skipped and
extraction continues), regardless of any strict-mode extract flags. -/
theorem C1_mknod_eperm_always_downgraded (env : EmptyFileEnv)
    (unlink_ok : Bool) (rest : List CreateAttempt)
    (h1 : env.is_first_extraction_dentry = true)
    (h2 : env.is_directory = false) (h3 : env.is_symlink = false)
    (h4 : env.unnamed_lte_resolved = false)
    (h5 : env.extract_flags.unix_data = true)
    (h6 : env.has_unix_data = true) (h7 : env.unix_mode_is_reg = false)
    (h8 : env.mknod_attempts = (some EPERM, unlink_ok) :: rest) :
    unix_extract_if_empty_file env = (0, 1) := by
  unfold unix_extract_if_empty_file
  simp [h1, h2, h3, h4, h5, h6, h7, h8, unix_mknod_loop]

/-- Witness for C1 (amended) at a concrete input, with strict flags off. -/
theorem C1_mknod_eperm_always_downgraded_witness :
    unix_extract_if_empty_file
        ⟨true, false, false, false, ⟨true, false, false⟩, true, false,
          [(some EPERM, false)], [], 0, true, 0, 0⟩ = (0, 1) :=
  C1_mknod_eperm_always_downgraded
    ⟨true, false, false, false, ⟨true, false, false⟩, true, false,
      [(some EPERM, false)], [], 0, true, 0, 0⟩ false []
    rfl rfl rfl rfl rfl rfl rfl rfl

/-- The owner loop of `unix_end_extract_stream` never decreases `j`, and
closes exactly the descriptor indices in `[j, final j)`. -/
theorem unix_end_loop_mem (owners : List StreamOwner) :
    ∀ j, j ≤ (unix_end_loop owners j).2.2 ∧
      ∀ i, j ≤ i → i < (unix_end_loop owners j).2.2 →
        i ∈ (unix_end_loop owners j).2.1 := by
  induction owners with
  | nil =>
    intro j
    refine ⟨Nat.le_refl j, fun i hji hij => ?_⟩
    simp [unix_end_loop] at hij
    omega
  | cons o rest ih =>
    intro j
    cases o with
    | symlink create_res meta_res =>
      by_cases hc : create_res ≠ 0
      · rw [show unix_end_loop (StreamOwner.symlink create_res meta_res ::
            rest) j = (create_res, [], j) from by simp [unix_end_loop, hc]]
        exact ⟨Nat.le_refl j, fun i hji hij => by simp at hij ⊢ <;> omega⟩
      · by_cases hm : meta_res ≠ 0
        · rw [show unix_end_loop (StreamOwner.symlink create_res meta_res ::
              rest) j = (meta_res, [], j) from by simp [unix_end_loop, hc, hm]]
          exact ⟨Nat.le_refl j, fun i hji hij => by simp at hij ⊢ <;> omega⟩
        · rw [show unix_end_loop (StreamOwner.symlink create_res meta_res ::
              rest) j = unix_end_loop rest j from by
            simp [unix_end_loop, hc, hm]]
          exact ih j
    | regular meta_res close_ok =>
      by_cases hm : meta_res ≠ 0
      · rw [show unix_end_loop (StreamOwner.regular meta_res close_ok ::
            rest) j = (meta_res, [], j) from by simp [unix_end_loop, hm]]
        exact ⟨Nat.le_refl j, fun i hji hij => by simp at hij ⊢ <;> omega⟩
      · by_cases hk : close_ok
        · rw [show unix_end_loop (StreamOwner.regular meta_res close_ok ::
              rest) j =
              ((unix_end_loop rest (j + 1)).1,
                j :: (unix_end_loop rest (j + 1)).2.1,
                (unix_end_loop rest (j + 1)).2.2) from by
            simp [unix_end_loop, hm, hk]]
          have ihj := ih (j + 1)
          constructor
          · simp only []
            omega
          · intro i hji hij
            simp only [List.mem_cons]
            rcases Nat.eq_or_lt_of_le hji with hji2 | hji2
            · exact Or.inl hji2.symm
            · exact Or.inr (ihj.2 i hji2 (by simpa using hij))
        · rw [show unix_end_loop (StreamOwner.regular meta_res close_ok ::
              rest) j = (WIMLIB_ERR_WRITE, [], j) from by
            simp [unix_end_loop, hm, hk]]
          exact ⟨Nat.le_refl j, fun i hji hij => by simp at hij ⊢ <;> omega⟩

/-- C5: `unix_end_extract_stream` zeroes `num_open_fds` and closes every
open descriptor on both the nonzero-status path and the success path, and
with a nonzero status it returns exactly that status. -/
theorem C5_end_extract_stream_closes_all (status : Int)
    (owners : List StreamOwner) (num_open_fds : Nat) :
    (unix_end_extract_stream status owners num_open_fds).2.2 = 0 ∧
    (∀ i, i < num_open_fds →
      i ∈ (unix_end_extract_stream status owners num_open_fds).2.1) ∧
    (status ≠ 0 →
      (unix_end_extract_stream status owners num_open_fds).1 = status) := by
  by_cases hs : status ≠ 0
  · refine ⟨?_, ?_, fun _ => ?_⟩
    · simp [unix_end_extract_stream, hs]
    · intro i hi
      have hshow : (unix_end_extract_stream status owners num_open_fds).2.1 =
          unix_cleanup_open_fds num_open_fds 0 := by
        simp [unix_end_extract_stream, hs]
      rw [hshow]
      simp only [unix_cleanup_open_fds]
      exact List.mem_range'_1.mpr (by omega)
    · simp [unix_end_extract_stream, hs]
  · refine ⟨?_, ?_, fun hc => absurd (by omega : status = 0) hc⟩
    · simp [unix_end_extract_stream, hs]
    · intro i hi
      have hloop := unix_end_loop_mem owners 0
      have hshow : (unix_end_extract_stream status owners num_open_fds).2.1 =
          (unix_end_loop owners 0).2.1 ++
            unix_cleanup_open_fds num_open_fds (unix_end_loop owners 0).2.2 := by
        simp [unix_end_extract_stream, hs]
      rw [hshow]
      refine List.mem_append.mpr ?_
      by_cases hij : i < (unix_end_loop owners 0).2.2
      · exact Or.inl (hloop.2 i (Nat.zero_le i) hij)
      · refine Or.inr ?_
        simp only [unix_cleanup_open_fds]
        exact List.mem_range'_1.mpr (by omega)

/-- Witness for C5 at concrete inputs: status 7 with two open
descriptors, and a successful stream with one regular-file owner. -/
theorem C5_end_extract_stream_closes_all_witness :
    (unix_end_extract_stream 7 [] 2).1 = 7 ∧
    (unix_end_extract_stream 7 [] 2).2.2 = 0 ∧
    0 ∈ (unix_end_extract_stream 7 [] 2).2.1 ∧
    0 ∈ (unix_end_extract_stream 0 [StreamOwner.regular 0 true] 1).2.1 :=
  ⟨(C5_end_extract_stream_closes_all 7 [] 2).2.2 (by norm_num),
   (C5_end_extract_stream_closes_all 7 [] 2).1,
   (C5_end_extract_stream_closes_all 7 [] 2).2.1 0 (by norm_num),
   (C5_end_extract_stream_closes_all 0 [StreamOwner.regular 0 true] 1).2.1 0
     (by norm_num)⟩

/-- Witness for C8 at concrete inputs: a global default of 77 is set for
every codec by `ctype == -1`, and with no default set, creating an LZX
(ctype 2) compressor at level 0 passes level 50 to the codec. -/
theorem C8_default_compression_levels_witness :
    (wimlib_set_default_compression_level (fun _ => 0) (-1) 77).1 = 0 ∧
    (wimlib_set_default_compression_level (fun _ => 0) (-1) 77).2 2 = 77 ∧
    (wimlib_create_compressor ⟨true, fun _ _ => 0, true, 0, true⟩
        (fun _ => 0) 2 32768 0 false).create_called_with =
      some (32768, DEFAULT_COMPRESSION_LEVEL) := by
  refine ⟨(C8_default_compression_levels ⟨true, fun _ _ => 0, true, 0, true⟩
      (fun _ => 0) (-1) 77 32768 0).1.1,
    (C8_default_compression_levels ⟨true, fun _ _ => 0, true, 0, true⟩
      (fun _ => 0) (-1) 77 32768 0).1.2 2 (by decide), ?_⟩
  have h := (C8_default_compression_levels ⟨true, fun _ _ => 0, true, 0, true⟩
    (fun _ => 0) 2 77 32768 0).2.2.2.2.2 (by decide) rfl rfl (by norm_num)
  simpa using h
